import Mathlib

/-!
Verification of the frame-processing pipeline of `src/app.py`
(emotion_detection repository).

The single route handler `process_video` is embedded as a pure function
from the external collaborators' responses (video container properties,
per-frame classifier output, upload outcome) to the HTTP response plus a
trace of the side effects it performs (file saves, capture/writer
lifecycle, frame writes, upload attempts).  Machine floats of the source
are modelled as rationals; the Python literal `0.95` is the rational
`19/20`.
-/

/-- BGR color triple as used by OpenCV calls in `app.py`. -/
abbrev Color := Nat × Nat × Nat

/-- The module-level `EMOTION_COLORS` table of `app.py` (lines 20-28). -/
def EMOTION_COLORS : List (String × Color) :=
  [ ("happy", (0, 255, 0))        -- green
  , ("sad", (255, 0, 0))          -- blue
  , ("angry", (0, 0, 255))        -- red
  , ("surprise", (255, 255, 0))   -- cyan
  , ("fear", (128, 0, 128))       -- purple
  , ("disgust", (0, 255, 255))    -- yellow
  , ("neutral", (200, 200, 200))  -- grey
  ]

/-- `EMOTION_COLORS.get(emotion, (255, 255, 255))` of line 131: dictionary
lookup with white as the default for unrecognized labels. -/
def lookupColor (emotion : String) : Color :=
  (EMOTION_COLORS.lookup emotion).getD (255, 255, 255)

/-- A face bounding box `face["region"]`: fields x, y, w, h (line 97). -/
structure Region where
  x : Int
  y : Int
  w : Int
  h : Int
deriving Repr, DecidableEq

/-- One element of the list returned by `DeepFace.analyze`.  The Python
dictionary accesses can raise `KeyError` on malformed data, so the pieces
read by `process_video` are modelled as optional: `none` models a lookup
that raises (caught by the per-frame `except`).  `emotionScores` models
the `face["emotion"]` mapping from label to score. -/
structure RawFace where
  regionData : Option Region
  dominantEmotion : Option String
  emotionScores : List (String × Rat)
deriving Repr, DecidableEq

/-- Outcome of the `DeepFace.analyze(frame, actions=["emotion"],
enforce_detection=False)` call for one frame: either the invocation itself
raises, or it returns a list of faces. -/
inductive AnalyzeResult where
  | failure : AnalyzeResult
  | faces : List RawFace → AnalyzeResult
deriving Repr, DecidableEq

/-- One frame read from the input capture together with the classifier's
behaviour on it.  `w`/`h` are the decoded raster's own dimensions (the
loop resizes the frame to the stream dimensions when they mismatch,
lines 89-91). -/
structure InputFrame where
  w : Nat
  h : Nat
  analysis : AnalyzeResult
deriving Repr, DecidableEq

/-- A drawing primitive applied to a frame: the `cv2.rectangle` and
`cv2.putText` calls of lines 136-145.  The text op carries the label and
score rendered by the f-string `"{emotion} {score:.2f}"` together with
the font scale `0.9`. -/
inductive DrawOp where
  | rect (p1 p2 : Int × Int) (color : Color) (thickness : Nat)
  | text (emotion : String) (score : Rat) (anchor : Int × Int)
      (scale : Rat) (color : Color) (thickness : Nat)
deriving Repr, DecidableEq

/-- A frame as written to the output stream: the stream dimensions (the
loop has already resized it) plus the annotations drawn on it, in order. -/
structure OutFrame where
  w : Nat
  h : Nat
  drawOps : List DrawOp
deriving Repr, DecidableEq

/-- One entry of `emotions_data`: the per-(frame, detection) record
appended at lines 103-112, 116-125 and 146-155. -/
structure FrameRecord where
  frame : Nat
  face_detected : Bool
  emotion : Option String
  confidence : Option Rat
  x : Option Int
  y : Option Int
  width : Option Int
  height : Option Int
deriving Repr, DecidableEq

/-- The all-null record appended by both filters (lines 103-112 and
116-125). -/
def nullRecord (frameCount : Nat) : FrameRecord :=
  { frame := frameCount
  , face_detected := false
  , emotion := none
  , confidence := none
  , x := none
  , y := none
  , width := none
  , height := none }

/-- The record appended for a detection that passes both filters
(lines 146-155). -/
def faceRecord (frameCount : Nat) (r : Region) (emotion : String)
    (score : Rat) : FrameRecord :=
  { frame := frameCount
  , face_detected := true
  , emotion := some emotion
  , confidence := some score
  , x := some r.x
  , y := some r.y
  , width := some r.w
  , height := some r.h }

/-- The four drawing calls performed for one valid detection
(lines 136-145): thick black rectangle, colored rectangle, thick black
text, colored text, all at the same bounds / anchor `(x, y - 10)`. -/
def faceDrawOps (r : Region) (emotion : String) (score : Rat) : List DrawOp :=
  let color := lookupColor emotion
  [ DrawOp.rect (r.x, r.y) (r.x + r.w, r.y + r.h) (0, 0, 0) 4
  , DrawOp.rect (r.x, r.y) (r.x + r.w, r.y + r.h) color 2
  , DrawOp.text emotion score (r.x, r.y - 10) 0.9 (0, 0, 0) 4
  , DrawOp.text emotion score (r.x, r.y - 10) 0.9 color 2 ]

/-- The body of `for face in result:` (lines 96-157), run inside the
per-frame `try`.  Returns the records appended to `emotions_data`, the
draw ops applied to the frame, and whether an exception was raised while
processing the result (which aborts the remaining faces and is caught by
the `except` at line 158).  `frame_width`/`frame_height` are the frame's
dimensions after the resize of line 91, i.e. the stream dimensions. -/
def processFaces (frameCount fw fh : Nat) :
    List RawFace → List FrameRecord × List DrawOp × Bool
  | [] => ([], [], false)
  | face :: rest =>
    match face.regionData with
    | none => ([], [], true)  -- face["region"]["x"] raises
    | some r =>
      if r.w = 0 ∨ r.h = 0 then
        -- empty face region: null record, no drawing, continue
        (nullRecord frameCount :: (processFaces frameCount fw fh rest).1,
         (processFaces frameCount fw fh rest).2.1,
         (processFaces frameCount fw fh rest).2.2)
      else if (r.w : Rat) ≥ (fw : Rat) * 0.95 ∧ (r.h : Rat) ≥ (fh : Rat) * 0.95 then
        -- full-frame box: null record, no drawing, continue
        (nullRecord frameCount :: (processFaces frameCount fw fh rest).1,
         (processFaces frameCount fw fh rest).2.1,
         (processFaces frameCount fw fh rest).2.2)
      else
        match face.dominantEmotion with
        | none => ([], [], true)  -- face["dominant_emotion"] raises
        | some emotion =>
          match face.emotionScores.lookup emotion with
          | none => ([], [], true)  -- face["emotion"][emotion] raises
          | some score =>
            (faceRecord frameCount r emotion score ::
               (processFaces frameCount fw fh rest).1,
             faceDrawOps r emotion score ++ (processFaces frameCount fw fh rest).2.1,
             (processFaces frameCount fw fh rest).2.2)

/-- One iteration of the `while cap.isOpened()` loop for a successfully
read frame (lines 86-161): resize to the stream dimensions, run the
classifier inside `try`, and produce the records appended plus the frame
as written by `out.write(frame)`.  A raised exception never escapes the
iteration. -/
def processFrame (frameCount width height : Nat) (f : InputFrame) :
    List FrameRecord × OutFrame :=
  match f.analysis with
  | AnalyzeResult.failure => ([], ⟨width, height, []⟩)
  | AnalyzeResult.faces fs =>
    ((processFaces frameCount width height fs).1,
     ⟨width, height, (processFaces frameCount width height fs).2.1⟩)

/-- The whole frame loop starting from a given `frame_count` value:
returns the accumulated `emotions_data` and the frames written to the
output stream, in order. -/
def processLoopFrom (width height : Nat) : Nat → List InputFrame →
    List FrameRecord × List OutFrame
  | _, [] => ([], [])
  | start, f :: rest =>
    ((processFrame start width height f).1 ++
       (processLoopFrom width height (start + 1) rest).1,
     (processFrame start width height f).2 ::
       (processLoopFrom width height (start + 1) rest).2)

/-- The frame loop of lines 81-161: `frame_count` is incremented before
processing, so the first frame is numbered 1. -/
def processLoop (width height : Nat) (frames : List InputFrame) :
    List FrameRecord × List OutFrame :=
  processLoopFrom width height 1 frames

/-- Side effects performed by `process_video`, in program order.
`saveInput` is `video_file.save(input_path)` (line 60); `openCapture` is
`cv2.VideoCapture(input_path)` (line 63); `createWriter` is the
`cv2.VideoWriter(output_path, fourcc, fps, (width, height))` call of
line 74, carrying whether the writer could actually be constructed (the
Python binding does not raise on failure; it returns a writer whose
`isOpened()` is false, a flag `app.py` never reads); `writeFrame` is
`out.write(frame)` (line 161); `releaseCapture`/`releaseWriter` are
lines 163-164; `uploadAttempt` is `s3.upload_file(...)` (line 173);
`deleteFile` models `os.remove`, which appears only commented out
(line 168) and is therefore never emitted. -/
inductive Event where
  | saveInput (path : String)
  | openCapture (path : String)
  | createWriter (path : String) (opened : Bool) (fps : Rat) (w h : Nat)
  | writeFrame (f : OutFrame)
  | releaseCapture
  | releaseWriter
  | uploadAttempt (path bucket key : String)
  | deleteFile (path : String)
deriving Repr, DecidableEq

/-- `os.path.join(UPLOAD_FOLDER, f"temp_{unique_id}.mp4")` (line 57). -/
def input_path (uniqueId : String) : String :=
  "uploads/temp_" ++ uniqueId ++ ".mp4"

/-- `os.path.join(OUTPUT_FOLDER, f"processed_{unique_id}.mp4")` (line 58). -/
def output_path (uniqueId : String) : String :=
  "outputs/processed_" ++ uniqueId ++ ".mp4"

/-- `s3_key = f"videos/{os.path.basename(output_path)}"` (line 171). -/
def s3_key (uniqueId : String) : String :=
  "videos/processed_" ++ uniqueId ++ ".mp4"

/-- `s3_url = f"https://{bucket_name}.s3.amazonaws.com/{s3_key}"`
(line 174). -/
def s3_url (bucket uniqueId : String) : String :=
  "https://" ++ bucket ++ ".s3.amazonaws.com/" ++ s3_key uniqueId

/-- The HTTP responses `process_video` can return: the three error
payloads of lines 53, 70 and 178, and the success payload of
lines 180-185. -/
inductive Response where
  | errorNoVideo                  -- {"error": "No video file provided"}, 400
  | errorReadFailed               -- {"error": "Failed to read video frames."}, 500
  | errorUploadFailed             -- {"error": "Failed to upload to S3"}, 500
  | success (outputVideoPath s3Url : String) (results : List FrameRecord)
deriving Repr, DecidableEq

/-- Whether the response payload carries a remote URL: only the success
payload has an `s3_url` field. -/
def Response.hasRemoteUrl : Response → Bool
  | Response.success _ _ _ => true
  | _ => false

/-- Everything the environment contributes to one request: whether the
request carries a video, the generated `unique_id` and the configured
bucket, the capture's declared FPS (`cap.get(cv2.CAP_PROP_FPS)`, which
OpenCV reports as 0 when unavailable), the outcome of the probe read of
line 68, the stream dimensions taken from the first frame, whether the
output writer can actually be constructed, the frames delivered by the
loop's reads (after the rewind of line 77), and whether the S3 upload
succeeds. -/
structure JobInput where
  hasVideo : Bool
  uniqueId : String
  bucketName : String
  declaredFps : Rat
  firstReadOk : Bool
  streamW : Nat
  streamH : Nat
  writerOpened : Bool
  frames : List InputFrame
  uploadOk : Bool
deriving Repr, DecidableEq

/-- The `process_video` route handler (lines 51-185) as a pure function:
given the environment's behaviour, it returns the HTTP response and the
ordered trace of side effects performed. -/
def process_video (inp : JobInput) : Response × List Event :=
  if inp.hasVideo = false then
    (Response.errorNoVideo, [])
  else
    let inPath := input_path inp.uniqueId
    let outPath := output_path inp.uniqueId
    let fps := if inp.declaredFps = 0 then 25 else inp.declaredFps
    if inp.firstReadOk = false then
      -- line 70: early return; note no cap.release() on this path
      (Response.errorReadFailed, [Event.saveInput inPath, Event.openCapture inPath])
    else
      let trace :=
        [Event.saveInput inPath, Event.openCapture inPath,
         Event.createWriter outPath inp.writerOpened fps inp.streamW inp.streamH]
        ++ ((processLoop inp.streamW inp.streamH inp.frames).2).map Event.writeFrame
        ++ [Event.releaseCapture, Event.releaseWriter,
            Event.uploadAttempt outPath inp.bucketName (s3_key inp.uniqueId)]
      if inp.uploadOk = false then
        (Response.errorUploadFailed, trace)
      else
        (Response.success outPath (s3_url inp.bucketName inp.uniqueId)
           (processLoop inp.streamW inp.streamH inp.frames).1, trace)

/-- The frames written to the output stream, in order, as recorded in a
trace. -/
def writtenFrames (trace : List Event) : List OutFrame :=
  trace.filterMap fun e =>
    match e with
    | Event.writeFrame f => some f
    | _ => none

/-! Concrete inputs used by witnesses and counterexamples. -/

/-- The region of the spec's sample scenario: a face at (10, 10) of size
50 by 50 on a 100 by 100 frame. -/
def happyRegion : Region := ⟨10, 10, 50, 50⟩

/-- A well-formed classifier entry: a "happy" face with score 0.8. -/
def happyFace : RawFace :=
  { regionData := some happyRegion
  , dominantEmotion := some "happy"
  , emotionScores := [("happy", 0.8)] }

/-- A malformed classifier entry: every dictionary access raises. -/
def malformedFace : RawFace :=
  { regionData := none, dominantEmotion := none, emotionScores := [] }

/-- A degenerate detection: zero width. -/
def emptyFace : RawFace :=
  { regionData := some ⟨0, 0, 0, 10⟩
  , dominantEmotion := some "happy"
  , emotionScores := [("happy", 0.8)] }

/-- A sample job: a one-frame 100 by 100 video with one valid "happy"
detection, a declared rate of 30, a working writer and a working upload. -/
def sampleJob : JobInput :=
  { hasVideo := true
  , uniqueId := "id0"
  , bucketName := "bkt"
  , declaredFps := 30
  , firstReadOk := true
  , streamW := 100
  , streamH := 100
  , writerOpened := true
  , frames := [⟨100, 100, AnalyzeResult.faces [happyFace]⟩]
  , uploadOk := true }

/-- A job whose first frame cannot be decoded. -/
def unreadableJob : JobInput := { sampleJob with firstReadOk := false }

/-- A job whose output writer cannot be constructed. -/
def badWriterJob : JobInput := { sampleJob with writerOpened := false }

/-- A job whose capture reports no frame rate. -/
def noFpsJob : JobInput := { sampleJob with declaredFps := 0 }

/-- A job whose upload fails. -/
def badUploadJob : JobInput := { sampleJob with uploadOk := false }

/-- A job whose single frame's classifier result holds a well-formed face
followed by a malformed one. -/
def partialFailureJob : JobInput :=
  { sampleJob with
      frames := [⟨100, 100, AnalyzeResult.faces [happyFace, malformedFace]⟩] }

/-! Helper lemmas shared by the claim theorems. -/

theorem mem_of_lookup_eq_some {α β : Type} [BEq α] [LawfulBEq α]
    {l : List (α × β)} {e : α} {s : β} (h : l.lookup e = some s) : (e, s) ∈ l := by
  induction l with
  | nil => simp [List.lookup] at h
  | cons p rest ih =>
    obtain ⟨k, v⟩ := p
    simp only [List.lookup] at h
    cases hek : (e == k) with
    | false => rw [hek] at h; exact List.mem_cons_of_mem _ (ih h)
    | true =>
      rw [hek] at h
      simp at h
      rw [eq_of_beq hek, h]
      exact List.mem_cons_self _ _

theorem writtenFrames_append (a b : List Event) :
    writtenFrames (a ++ b) = writtenFrames a ++ writtenFrames b := by
  simp [writtenFrames, List.filterMap_append]

theorem writtenFrames_map_writeFrame (l : List OutFrame) :
    writtenFrames (l.map Event.writeFrame) = l := by
  induction l with
  | nil => rfl
  | cons f rest ih => simp [writtenFrames] at ih ⊢; exact ih

/-- The trace of a job that reaches the frame loop. -/
theorem process_video_trace (inp : JobInput) (h1 : inp.hasVideo = true)
    (h2 : inp.firstReadOk = true) :
    (process_video inp).2 =
      [Event.saveInput (input_path inp.uniqueId),
       Event.openCapture (input_path inp.uniqueId),
       Event.createWriter (output_path inp.uniqueId) inp.writerOpened
         (if inp.declaredFps = 0 then 25 else inp.declaredFps)
         inp.streamW inp.streamH]
      ++ ((processLoop inp.streamW inp.streamH inp.frames).2).map Event.writeFrame
      ++ [Event.releaseCapture, Event.releaseWriter,
          Event.uploadAttempt (output_path inp.uniqueId) inp.bucketName
            (s3_key inp.uniqueId)] := by
  simp only [process_video, h1, h2]
  rw [if_neg (by decide : ¬(true = false)), if_neg (by decide : ¬(true = false))]
  split <;> rfl

/-- The response of a job that reaches the frame loop. -/
theorem process_video_response (inp : JobInput) (h1 : inp.hasVideo = true)
    (h2 : inp.firstReadOk = true) :
    (process_video inp).1 =
      if inp.uploadOk = false then Response.errorUploadFailed
      else Response.success (output_path inp.uniqueId)
        (s3_url inp.bucketName inp.uniqueId)
        (processLoop inp.streamW inp.streamH inp.frames).1 := by
  simp only [process_video, h1, h2]
  rw [if_neg (by decide : ¬(true = false)), if_neg (by decide : ¬(true = false))]
  split <;> rfl

theorem writtenFrames_process_video (inp : JobInput) (h1 : inp.hasVideo = true)
    (h2 : inp.firstReadOk = true) :
    writtenFrames (process_video inp).2 =
      (processLoop inp.streamW inp.streamH inp.frames).2 := by
  rw [process_video_trace inp h1 h2, writtenFrames_append, writtenFrames_append,
    writtenFrames_map_writeFrame]
  simp [writtenFrames]

theorem processLoopFrom_snd_length (w h s : Nat) (fs : List InputFrame) :
    (processLoopFrom w h s fs).2.length = fs.length := by
  induction fs generalizing s with
  | nil => rfl
  | cons f rest ih => simp [processLoopFrom, ih]

theorem processLoopFrom_snd_getElem? (w h : Nat) (fs : List InputFrame) :
    ∀ s i f, fs[i]? = some f →
      (processLoopFrom w h s fs).2[i]? = some (processFrame (s + i) w h f).2 := by
  induction fs with
  | nil => intro s i f hf; simp at hf
  | cons g rest ih =>
    intro s i f hf
    cases i with
    | zero => simp at hf; simp [processLoopFrom, hf]
    | succ j =>
      simp at hf
      have := ih (s + 1) j f hf
      simp only [processLoopFrom, List.getElem?_cons_succ]
      rw [this, Nat.add_assoc, Nat.add_comm 1 j]

theorem processLoopFrom_fst (w h : Nat) (fs : List InputFrame) :
    ∀ s, (processLoopFrom w h s fs).1 =
      ((List.enumFrom s fs).map fun p => (processFrame p.1 w h p.2).1).flatten := by
  induction fs with
  | nil => intro s; rfl
  | cons f rest ih => intro s; simp [processLoopFrom, List.enumFrom, ih (s + 1)]

theorem processFaces_frame_eq (n fw fh : Nat) (fs : List RawFace) :
    ∀ rec ∈ (processFaces n fw fh fs).1, rec.frame = n := by
  induction fs with
  | nil => intro rec hrec; simp [processFaces] at hrec
  | cons face rest ih =>
    intro rec hrec
    obtain ⟨rd, de, es⟩ := face
    cases rd with
    | none => simp [processFaces] at hrec
    | some r =>
      simp only [processFaces] at hrec
      by_cases h0 : r.w = 0 ∨ r.h = 0
      · rw [if_pos h0] at hrec
        rcases List.mem_cons.mp hrec with h | h
        · rw [h]; rfl
        · exact ih rec h
      · rw [if_neg h0] at hrec
        by_cases h95 : (r.w : Rat) ≥ (fw : Rat) * 0.95 ∧ (r.h : Rat) ≥ (fh : Rat) * 0.95
        · rw [if_pos h95] at hrec
          rcases List.mem_cons.mp hrec with h | h
          · rw [h]; rfl
          · exact ih rec h
        · rw [if_neg h95] at hrec
          cases de with
          | none => simp at hrec
          | some emo =>
            simp only [] at hrec
            cases hs : es.lookup emo with
            | none => rw [hs] at hrec; simp at hrec
            | some score =>
              rw [hs] at hrec
              rcases List.mem_cons.mp hrec with h | h
              · rw [h]; rfl
              · exact ih rec h

theorem processFaces_happy_cons (rest : List RawFace) :
    processFaces 1 100 100 (happyFace :: rest) =
      (faceRecord 1 happyRegion "happy" 0.8 :: (processFaces 1 100 100 rest).1,
       faceDrawOps happyRegion "happy" 0.8 ++ (processFaces 1 100 100 rest).2.1,
       (processFaces 1 100 100 rest).2.2) := by
  simp only [processFaces, happyFace, happyRegion]
  rw [if_neg (by decide), if_neg (by norm_num)]
  simp [List.lookup]

theorem processFaces_happy_single :
    processFaces 1 100 100 [happyFace] =
      ([faceRecord 1 happyRegion "happy" 0.8],
       faceDrawOps happyRegion "happy" 0.8, false) := by
  rw [processFaces_happy_cons []]
  rfl

theorem processFaces_partial_failure :
    processFaces 1 100 100 [happyFace, malformedFace] =
      ([faceRecord 1 happyRegion "happy" 0.8],
       faceDrawOps happyRegion "happy" 0.8, true) := by
  rw [processFaces_happy_cons [malformedFace]]
  simp [processFaces, malformedFace]

theorem sampleJob_loop :
    processLoop 100 100 sampleJob.frames =
      ([faceRecord 1 happyRegion "happy" 0.8],
       [⟨100, 100, faceDrawOps happyRegion "happy" 0.8⟩]) := by
  simp [sampleJob, processLoop, processLoopFrom, processFrame,
    processFaces_happy_single]

theorem partialFailureJob_loop :
    processLoop 100 100 partialFailureJob.frames =
      ([faceRecord 1 happyRegion "happy" 0.8],
       [⟨100, 100, faceDrawOps happyRegion "happy" 0.8⟩]) := by
  simp [partialFailureJob, sampleJob, processLoop, processLoopFrom,
    processFrame, processFaces_partial_failure]

/-- C1: during the processing loop, exactly one frame is written to the
output stream per frame read from the input stream, in the same order:
the written-frame sequence has the same length as the read sequence, and
the frame at position i of the output is precisely the processed form of
the frame read at position i, whatever its classifier outcome was. -/
theorem c1_frame_count_invariant (inp : JobInput)
    (h1 : inp.hasVideo = true) (h2 : inp.firstReadOk = true) :
    (writtenFrames (process_video inp).2).length = inp.frames.length ∧
    ∀ i f, inp.frames[i]? = some f →
      (writtenFrames (process_video inp).2)[i]? =
        some (processFrame (i + 1) inp.streamW inp.streamH f).2 := by
  rw [writtenFrames_process_video inp h1 h2]
  simp only [processLoop]
  refine ⟨processLoopFrom_snd_length _ _ _ _, ?_⟩
  intro i f hf
  rw [processLoopFrom_snd_getElem? inp.streamW inp.streamH inp.frames 1 i f hf,
    Nat.add_comm 1 i]

/-- Witness for C1 at the sample one-frame job. -/
theorem c1_frame_count_invariant_witness :
    sampleJob.hasVideo = true ∧ sampleJob.firstReadOk = true ∧
    (writtenFrames (process_video sampleJob).2).length = sampleJob.frames.length :=
  ⟨rfl, rfl, (c1_frame_count_invariant sampleJob rfl rfl).1⟩

/-- C2: a detection whose region has zero width or zero height, or whose
region spans at least 95 percent of both frame dimensions, yields exactly
one appended record — the all-null one with face_detected false — draws
nothing, and processing continues with the remaining detections. -/
theorem c2_filters_null_record (frameCount fw fh : Nat) (face : RawFace)
    (rest : List RawFace) (r : Region) (hreg : face.regionData = some r)
    (hfilter : (r.w = 0 ∨ r.h = 0) ∨
      ((r.w : Rat) ≥ (fw : Rat) * 0.95 ∧ (r.h : Rat) ≥ (fh : Rat) * 0.95)) :
    processFaces frameCount fw fh (face :: rest) =
      (nullRecord frameCount :: (processFaces frameCount fw fh rest).1,
       (processFaces frameCount fw fh rest).2.1,
       (processFaces frameCount fw fh rest).2.2) ∧
    nullRecord frameCount =
      { frame := frameCount, face_detected := false, emotion := none,
        confidence := none, x := none, y := none, width := none,
        height := none } := by
  refine ⟨?_, rfl⟩
  simp only [processFaces, hreg]
  by_cases h0 : r.w = 0 ∨ r.h = 0
  · rw [if_pos h0]
  · rw [if_neg h0, if_pos (hfilter.resolve_left h0)]

/-- Witness for C2 at a zero-width detection on a 100 by 100 frame. -/
theorem c2_filters_null_record_witness :
    emptyFace.regionData = some ⟨0, 0, 0, 10⟩ ∧
    ((0 : Int) = 0 ∨ (10 : Int) = 0) ∧
    processFaces 1 100 100 [emptyFace] = ([nullRecord 1], [], false) := by
  refine ⟨rfl, Or.inl rfl, ?_⟩
  rw [(c2_filters_null_record 1 100 100 emptyFace [] ⟨0, 0, 0, 10⟩ rfl
    (Or.inl (Or.inl rfl))).1]
  rfl

theorem process_video_no_delete (inp : JobInput) :
    ∀ p, Event.deleteFile p ∉ (process_video inp).2 := by
  intro p
  cases hv : inp.hasVideo with
  | false => simp [process_video, hv]
  | true =>
    cases hr : inp.firstReadOk with
    | false => simp [process_video, hv, hr]
    | true =>
      rw [process_video_trace inp hv hr]
      simp [List.mem_append, List.mem_map]

/-- C8: the record log is ordered by insertion with 1-based frame
indices: the loop's record list is the concatenation, in frame order, of
the per-frame record chunks, and within the chunk of the frame numbered
n every record carries frame index n (so several faces in one frame
yield several records sharing that index). -/
theorem c8_record_order :
    (∀ w h frames, (processLoop w h frames).1 =
      ((List.enumFrom 1 frames).map fun p => (processFrame p.1 w h p.2).1).flatten) ∧
    (∀ n w h f rec, rec ∈ (processFrame n w h f).1 → rec.frame = n) := by
  constructor
  · intro w h frames
    exact processLoopFrom_fst w h frames 1
  · intro n w h f rec hrec
    cases ha : f.analysis with
    | failure => simp [processFrame, ha] at hrec
    | faces fs =>
      simp only [processFrame, ha] at hrec
      exact processFaces_frame_eq n w h fs rec hrec

/-- Witness for C8: a frame with two detections produces two records both
indexed 1. -/
theorem c8_record_order_witness :
    faceRecord 1 happyRegion "happy" 0.8 ∈
      (processFrame 1 100 100 ⟨100, 100,
        AnalyzeResult.faces [happyFace, happyFace]⟩).1 ∧
    (faceRecord 1 happyRegion "happy" 0.8).frame = 1 := by
  have hmem : faceRecord 1 happyRegion "happy" 0.8 ∈
      (processFrame 1 100 100 ⟨100, 100,
        AnalyzeResult.faces [happyFace, happyFace]⟩).1 := by
    simp [processFrame, processFaces_happy_cons [happyFace],
      processFaces_happy_cons []]
  exact ⟨hmem, c8_record_order.2 1 100 100 ⟨100, 100,
    AnalyzeResult.faces [happyFace, happyFace]⟩ _ hmem⟩

/-- C9: the frame rate handed to the output writer equals the capture's
declared rate, except that a declared rate of 0 (OpenCV's encoding of an
unavailable rate) is replaced by the default 25. -/
theorem c9_output_fps (inp : JobInput) (h1 : inp.hasVideo = true)
    (h2 : inp.firstReadOk = true) :
    (inp.declaredFps ≠ 0 →
      Event.createWriter (output_path inp.uniqueId) inp.writerOpened
        inp.declaredFps inp.streamW inp.streamH ∈ (process_video inp).2) ∧
    (inp.declaredFps = 0 →
      Event.createWriter (output_path inp.uniqueId) inp.writerOpened
        25 inp.streamW inp.streamH ∈ (process_video inp).2) := by
  rw [process_video_trace inp h1 h2]
  constructor
  · intro hne
    rw [if_neg hne]
    simp
  · intro he
    rw [if_pos he]
    simp

/-- Witness for C9 at a job whose capture declares no frame rate. -/
theorem c9_output_fps_witness :
    noFpsJob.hasVideo = true ∧ noFpsJob.firstReadOk = true ∧
    noFpsJob.declaredFps = 0 ∧
    Event.createWriter (output_path "id0") true 25 100 100 ∈
      (process_video noFpsJob).2 :=
  ⟨rfl, rfl, rfl, (c9_output_fps noFpsJob rfl rfl).2 rfl⟩

/-- C10: the saved input video is never deleted: whenever a job saves the
payload (any hasVideo run, whatever its outcome), the save event is in
the trace and no file-deletion event ever is, so the uploaded payload is
still in the uploads folder at job end. -/
theorem c10_input_file_retained (inp : JobInput) (h1 : inp.hasVideo = true) :
    Event.saveInput (input_path inp.uniqueId) ∈ (process_video inp).2 ∧
    ∀ p, Event.deleteFile p ∉ (process_video inp).2 := by
  refine ⟨?_, process_video_no_delete inp⟩
  cases hr : inp.firstReadOk with
  | false => simp [process_video, h1, hr]
  | true =>
    rw [process_video_trace inp h1 hr]
    simp

/-- Witness for C10 at the unreadable-video job. -/
theorem c10_input_file_retained_witness :
    unreadableJob.hasVideo = true ∧
    Event.saveInput (input_path "id0") ∈ (process_video unreadableJob).2 ∧
    Event.deleteFile (input_path "id0") ∉ (process_video unreadableJob).2 :=
  ⟨rfl, (c10_input_file_retained unreadableJob rfl).1,
    (c10_input_file_retained unreadableJob rfl).2 (input_path "id0")⟩

/-- C7: when the upload collaborator fails, the job returns the upload
error response, which carries no remote URL; the trace holds exactly one
upload attempt (no retry) and no file deletion (no rollback), so the
encoded output file remains on local disk. -/
theorem c7_upload_failure (inp : JobInput) (h1 : inp.hasVideo = true)
    (h2 : inp.firstReadOk = true) (h3 : inp.uploadOk = false) :
    (process_video inp).1 = Response.errorUploadFailed ∧
    Response.hasRemoteUrl (process_video inp).1 = false ∧
    ((process_video inp).2.count
      (Event.uploadAttempt (output_path inp.uniqueId) inp.bucketName
        (s3_key inp.uniqueId))) = 1 ∧
    ∀ p, Event.deleteFile p ∉ (process_video inp).2 := by
  have hresp : (process_video inp).1 = Response.errorUploadFailed := by
    rw [process_video_response inp h1 h2, if_pos h3]
  refine ⟨hresp, by rw [hresp]; rfl, ?_, process_video_no_delete inp⟩
  rw [process_video_trace inp h1 h2, List.count_append, List.count_append]
  have hB : (((processLoop inp.streamW inp.streamH inp.frames).2).map
      Event.writeFrame).count
      (Event.uploadAttempt (output_path inp.uniqueId) inp.bucketName
        (s3_key inp.uniqueId)) = 0 :=
    List.count_eq_zero.mpr (by simp)
  rw [hB]
  simp [List.count_cons]

/-- Witness for C7 at a job whose upload fails. -/
theorem c7_upload_failure_witness :
    badUploadJob.hasVideo = true ∧ badUploadJob.firstReadOk = true ∧
    badUploadJob.uploadOk = false ∧
    (process_video badUploadJob).1 = Response.errorUploadFailed ∧
    Response.hasRemoteUrl (process_video badUploadJob).1 = false :=
  ⟨rfl, rfl, rfl, (c7_upload_failure badUploadJob rfl rfl rfl).1,
    (c7_upload_failure badUploadJob rfl rfl rfl).2.1⟩

/-- C6 counterexample: on the unreadable-video path the input capture is
opened but never released, so "the stream handles that were opened are
released by job end on every execution path" is false on the code. -/
theorem c6_counterexample :
    Event.openCapture (input_path "id0") ∈ (process_video unreadableJob).2 ∧
    Event.releaseCapture ∉ (process_video unreadableJob).2 := by
  constructor
  · simp [process_video, unreadableJob, sampleJob]
  · simp [process_video, unreadableJob, sampleJob]

/-- C6 amended: on every path that reaches the processing loop, both
stream handles are released by job end and the upload attempt happens
only after both releases (the trace ends with the two releases followed
by the upload, and neither a release nor an upload occurs earlier). -/
theorem c6_streams_released_before_upload (inp : JobInput)
    (h1 : inp.hasVideo = true) (h2 : inp.firstReadOk = true) :
    ∃ pre,
      (process_video inp).2 = pre ++ [Event.releaseCapture, Event.releaseWriter,
        Event.uploadAttempt (output_path inp.uniqueId) inp.bucketName
          (s3_key inp.uniqueId)] ∧
      (∀ p b k, Event.uploadAttempt p b k ∉ pre) ∧
      Event.releaseCapture ∉ pre ∧ Event.releaseWriter ∉ pre := by
  refine ⟨[Event.saveInput (input_path inp.uniqueId),
    Event.openCapture (input_path inp.uniqueId),
    Event.createWriter (output_path inp.uniqueId) inp.writerOpened
      (if inp.declaredFps = 0 then 25 else inp.declaredFps)
      inp.streamW inp.streamH]
    ++ ((processLoop inp.streamW inp.streamH inp.frames).2).map Event.writeFrame,
    ?_, ?_, ?_, ?_⟩
  · rw [process_video_trace inp h1 h2]
  · intro p b k
    simp
  · simp
  · simp

/-- Witness for C6's amended statement at the sample job. -/
theorem c6_streams_released_before_upload_witness :
    sampleJob.hasVideo = true ∧ sampleJob.firstReadOk = true ∧
    ∃ pre,
      (process_video sampleJob).2 = pre ++ [Event.releaseCapture,
        Event.releaseWriter,
        Event.uploadAttempt (output_path "id0") "bkt" (s3_key "id0")] ∧
      (∀ p b k, Event.uploadAttempt p b k ∉ pre) ∧
      Event.releaseCapture ∉ pre ∧ Event.releaseWriter ∉ pre :=
  ⟨rfl, rfl, c6_streams_released_before_upload sampleJob rfl rfl⟩

/-- C5 counterexample: with a writer that cannot be constructed, the job
raises no error and still proceeds to write the frame and return success,
so "the frame sink creation step fails and the job does not proceed to
write frames" is false on the code (app.py never checks the writer). -/
theorem c5_counterexample :
    Event.createWriter (output_path "id0") false 30 100 100 ∈
      (process_video badWriterJob).2 ∧
    writtenFrames (process_video badWriterJob).2 =
      [⟨100, 100, faceDrawOps happyRegion "happy" 0.8⟩] ∧
    (process_video badWriterJob).1 =
      Response.success (output_path "id0") (s3_url "bkt" "id0")
        [faceRecord 1 happyRegion "happy" 0.8] := by
  refine ⟨?_, ?_, ?_⟩
  · rw [process_video_trace badWriterJob rfl rfl]
    simp [badWriterJob, sampleJob]
  · rw [writtenFrames_process_video badWriterJob rfl rfl]
    have : badWriterJob.frames = sampleJob.frames := rfl
    rw [show (processLoop badWriterJob.streamW badWriterJob.streamH
        badWriterJob.frames) = processLoop 100 100 sampleJob.frames from rfl,
      sampleJob_loop]
  · rw [process_video_response badWriterJob rfl rfl, if_neg (by decide),
      show (processLoop badWriterJob.streamW badWriterJob.streamH
        badWriterJob.frames) = processLoop 100 100 sampleJob.frames from rfl,
      sampleJob_loop]
    rfl

/-- C5 amended: the writer-construction outcome is never inspected: the
response and the frames written are identical whether or not the writer
could be constructed, and no error path exists for writer construction. -/
theorem c5_writer_failure_ignored (inp : JobInput) (b : Bool) :
    (process_video { inp with writerOpened := b }).1 = (process_video inp).1 ∧
    writtenFrames (process_video { inp with writerOpened := b }).2 =
      writtenFrames (process_video inp).2 := by
  constructor <;>
    cases hv : inp.hasVideo <;> cases hr : inp.firstReadOk <;>
      cases hu : inp.uploadOk <;>
        simp [process_video, writtenFrames, hv, hr, hu]

/-- C3 counterexample: for a frame whose classifier result is a valid
face followed by a malformed one, processing of the result raises, yet
the frame contributes one FrameRecord (not zero) and is written with
annotations (not unmodified), because the append and the drawing of the
first face happened before the exception. -/
theorem c3_counterexample :
    (processFaces 1 100 100 [happyFace, malformedFace]).2.2 = true ∧
    (processFrame 1 100 100 ⟨100, 100,
      AnalyzeResult.faces [happyFace, malformedFace]⟩).1 ≠ [] ∧
    (processFrame 1 100 100 ⟨100, 100,
      AnalyzeResult.faces [happyFace, malformedFace]⟩).2.drawOps ≠ [] ∧
    (process_video partialFailureJob).1 =
      Response.success (output_path "id0") (s3_url "bkt" "id0")
        [faceRecord 1 happyRegion "happy" 0.8] := by
  refine ⟨?_, ?_, ?_, ?_⟩
  · rw [processFaces_partial_failure]
  · simp [processFrame, processFaces_partial_failure]
  · simp [processFrame, processFaces_partial_failure, faceDrawOps]
  · rw [process_video_response partialFailureJob rfl rfl, if_neg (by decide),
      show (processLoop partialFailureJob.streamW partialFailureJob.streamH
        partialFailureJob.frames) =
        processLoop 100 100 partialFailureJob.frames from rfl,
      partialFailureJob_loop]
    rfl

/-- C3 amended: per-frame failures are caught inside the loop and the job
completes with every read frame written once; when the classifier
invocation itself fails the frame contributes zero records and is written
unmodified; when an error is raised partway through the result list, the
faces processed before the error keep their records and annotations and
only the remaining faces contribute nothing. -/
theorem c3_per_frame_isolation (inp : JobInput) (h1 : inp.hasVideo = true)
    (h2 : inp.firstReadOk = true) :
    ((process_video inp).1 = Response.errorUploadFailed ∨
      (process_video inp).1 = Response.success (output_path inp.uniqueId)
        (s3_url inp.bucketName inp.uniqueId)
        (processLoop inp.streamW inp.streamH inp.frames).1) ∧
    (writtenFrames (process_video inp).2).length = inp.frames.length ∧
    (∀ n w h f, f.analysis = AnalyzeResult.failure →
      processFrame n w h f = ([], ⟨w, h, []⟩)) ∧
    (∀ n fw fh face rest, face.regionData = none →
      processFaces n fw fh (face :: rest) = ([], [], true)) ∧
    (∀ (n fw fh : Nat) face rest r e s, face.regionData = some r →
      ¬(r.w = 0 ∨ r.h = 0) →
      ¬((r.w : Rat) ≥ (fw : Rat) * 0.95 ∧ (r.h : Rat) ≥ (fh : Rat) * 0.95) →
      face.dominantEmotion = some e →
      face.emotionScores.lookup e = some s →
      processFaces n fw fh (face :: rest) =
        (faceRecord n r e s :: (processFaces n fw fh rest).1,
         faceDrawOps r e s ++ (processFaces n fw fh rest).2.1,
         (processFaces n fw fh rest).2.2)) := by
  refine ⟨?_, ?_, ?_, ?_, ?_⟩
  · rw [process_video_response inp h1 h2]
    cases hu : inp.uploadOk with
    | false => left; rw [if_pos rfl]
    | true => right; rw [if_neg (by decide)]
  · rw [writtenFrames_process_video inp h1 h2]
    simp only [processLoop]
    exact processLoopFrom_snd_length _ _ _ _
  · intro n w h f hf
    simp [processFrame, hf]
  · intro n fw fh face rest hface
    simp [processFaces, hface]
  · intro n fw fh face rest r e s hr h0 h95 he hs
    simp only [processFaces, hr]
    rw [if_neg h0, if_neg h95]
    simp only [he, hs]

/-- Witness for C3's amended statement at the partial-failure job. -/
theorem c3_per_frame_isolation_witness :
    partialFailureJob.hasVideo = true ∧ partialFailureJob.firstReadOk = true ∧
    (writtenFrames (process_video partialFailureJob).2).length =
      partialFailureJob.frames.length :=
  ⟨rfl, rfl, (c3_per_frame_isolation partialFailureJob rfl rfl).2.1⟩

/-- C4: under the classifier collaborator's contract (every score of the
per-face emotion distribution lies in [0,1] and every dominant label is a
non-empty string), every record of a detection that passed both filters
stores a confidence in [0,1] and a non-empty emotion label — the code
copies both verbatim from the classifier's result. -/
theorem c4_confidence_in_unit_range (n fw fh : Nat) (fs : List RawFace)
    (hscore : ∀ face ∈ fs, ∀ p ∈ face.emotionScores, 0 ≤ p.2 ∧ p.2 ≤ 1)
    (hlabel : ∀ face ∈ fs, ∀ e, face.dominantEmotion = some e → e ≠ "") :
    ∀ rec ∈ (processFaces n fw fh fs).1, rec.face_detected = true →
      (∃ c, rec.confidence = some c ∧ 0 ≤ c ∧ c ≤ 1) ∧
      ∃ e, rec.emotion = some e ∧ e ≠ "" := by
  induction fs with
  | nil => intro rec hrec; simp [processFaces] at hrec
  | cons face rest ih =>
    have hscoreR : ∀ g ∈ rest, ∀ p ∈ g.emotionScores, 0 ≤ p.2 ∧ p.2 ≤ 1 :=
      fun g hg => hscore g (List.mem_cons_of_mem _ hg)
    have hlabelR : ∀ g ∈ rest, ∀ e, g.dominantEmotion = some e → e ≠ "" :=
      fun g hg => hlabel g (List.mem_cons_of_mem _ hg)
    intro rec hrec hdet
    simp only [processFaces] at hrec
    cases hrd : face.regionData with
    | none => rw [hrd] at hrec; simp at hrec
    | some r =>
      rw [hrd] at hrec
      simp only [] at hrec
      by_cases h0 : r.w = 0 ∨ r.h = 0
      · rw [if_pos h0] at hrec
        rcases List.mem_cons.mp hrec with h | h
        · rw [h] at hdet; exact absurd hdet (by simp [nullRecord])
        · exact ih hscoreR hlabelR rec h hdet
      · rw [if_neg h0] at hrec
        by_cases h95 : (r.w : Rat) ≥ (fw : Rat) * 0.95 ∧
            (r.h : Rat) ≥ (fh : Rat) * 0.95
        · rw [if_pos h95] at hrec
          rcases List.mem_cons.mp hrec with h | h
          · rw [h] at hdet; exact absurd hdet (by simp [nullRecord])
          · exact ih hscoreR hlabelR rec h hdet
        · rw [if_neg h95] at hrec
          cases hde : face.dominantEmotion with
          | none => rw [hde] at hrec; simp at hrec
          | some emo =>
            rw [hde] at hrec
            simp only [] at hrec
            cases hs : face.emotionScores.lookup emo with
            | none => rw [hs] at hrec; simp at hrec
            | some score =>
              rw [hs] at hrec
              rcases List.mem_cons.mp hrec with h | h
              · have hsc := hscore face (List.mem_cons_self _ _) (emo, score)
                  (mem_of_lookup_eq_some hs)
                rw [h]
                exact ⟨⟨score, rfl, hsc.1, hsc.2⟩,
                  ⟨emo, rfl, hlabel face (List.mem_cons_self _ _) emo hde⟩⟩
              · exact ih hscoreR hlabelR rec h hdet

/-- Witness for C4 at the sample "happy" detection with score 0.8. -/
theorem c4_confidence_in_unit_range_witness :
    (∀ face ∈ [happyFace], ∀ p ∈ face.emotionScores, 0 ≤ p.2 ∧ p.2 ≤ 1) ∧
    (∀ face ∈ [happyFace], ∀ e, face.dominantEmotion = some e → e ≠ "") ∧
    ((∃ c, (faceRecord 1 happyRegion "happy" 0.8).confidence = some c ∧
        0 ≤ c ∧ c ≤ 1) ∧
      ∃ e, (faceRecord 1 happyRegion "happy" 0.8).emotion = some e ∧ e ≠ "") := by
  have hscore : ∀ face ∈ [happyFace], ∀ p ∈ face.emotionScores,
      0 ≤ p.2 ∧ p.2 ≤ 1 := by
    intro face hf p hp
    rw [List.mem_singleton] at hf
    subst hf
    simp only [happyFace, List.mem_singleton] at hp
    subst hp
    norm_num
  have hlabel : ∀ face ∈ [happyFace], ∀ e,
      face.dominantEmotion = some e → e ≠ "" := by
    intro face hf e he
    rw [List.mem_singleton] at hf
    subst hf
    simp only [happyFace, Option.some.injEq] at he
    rw [← he]
    simp
  have hmem : faceRecord 1 happyRegion "happy" 0.8 ∈
      (processFaces 1 100 100 [happyFace]).1 := by
    rw [processFaces_happy_single]
    exact List.mem_singleton.mpr rfl
  exact ⟨hscore, hlabel,
    c4_confidence_in_unit_range 1 100 100 [happyFace] hscore hlabel _ hmem rfl⟩
